import Mathlib

/-!
# Shallow embedding of the multi-registrar domain pricing engine

This file embeds `app/services/multi_registrar_service.py` of the
`shopinstreet_backend` repository: the data model (`RegistrarResponse`,
`DomainPriceResult`), the static configuration tables (`REGISTRAR_APIS`,
`LOCATION_MARKUP`, `CACHE_TTL`, business-rule constants), and the pure
computational core of `get_domain_pricing`, `_find_cheapest_available`,
`_apply_geographic_markup`, `_create_unavailable_result`,
`_query_single_registrar`, `_query_all_registrars` and
`bulk_check_domains`.

Modelling conventions:
* Python floats carrying prices are modelled as `ℚ`; every constant in the
  source is exactly representable and no claim depends on rounding.
* Network I/O is abstracted: a registrar's raw interaction outcome is a
  `QueryOutcome` value (HTTP response with status and parsed JSON data,
  timeout, or an exception with a message), and the whole fan-out is a list
  of such outcomes plus a flag saying whether the overall 20-second
  `asyncio.wait_for` deadline fired.
* Python exceptions inside the `try:` block of `get_domain_pricing` are
  modelled with `Except`: the only raising operation in the pure body is
  the division `margin_usd / wholesale_price` (a `ZeroDivisionError` when
  the selected wholesale price is `0`), so `_apply_geographic_markup`
  returns `Except String DomainPriceResult` and `get_domain_pricing`'s
  `except Exception` handler maps the error to the literal error result of
  lines 280–291 of the source.
* The cache collaborator is modelled by returning the cache write performed
  by the call, if any, as `Option (String × ℕ)` (key and TTL) next to the
  result; the cache-hit early return takes the cached entry as an input.
* `checked_at` (wall-clock timestamp) and the measured `response_time_ms`
  are real-time observations; they are dropped from the embedded
  `DomainPriceResult` (`response_time_ms` on responses is kept as a plain
  field, always `0` in embedded constructions).
-/

/-- One registrar's answer for one domain
(`RegistrarResponse` dataclass, source lines 149–158). -/
structure RegistrarResponse where
  registrar : String
  domain : String
  available : Bool
  price : Option ℚ := none
  currency : String := "USD"
  premium : Bool := false
  response_time_ms : Int := 0
  error : Option String := none
deriving Repr, DecidableEq

/-- The engine's output for one domain and one location
(`DomainPriceResult` dataclass, source lines 160–174, without the
wall-clock fields `checked_at` / `response_time_ms`). -/
structure DomainPriceResult where
  domain : String
  wholesale_price : ℚ
  wholesale_registrar : String
  customer_price : ℚ
  customer_currency : String
  customer_symbol : String
  margin_amount : ℚ
  margin_percent : ℚ
  available : Bool
  premium : Bool := false
  registrar_responses : List RegistrarResponse := []
deriving Repr, DecidableEq

/-- One entry of the `LOCATION_MARKUP` table (source lines 118–130). -/
structure LocationRule where
  amount : ℚ
  currency : String
  symbol : String
deriving Repr, DecidableEq

/-- The geographic markup configuration dictionary (source lines 118–130). -/
def LOCATION_MARKUP : List (String × LocationRule) :=
  [ ("US", ⟨2, "USD", "$"⟩),
    ("India", ⟨100, "INR", "₹"⟩),
    ("UK", ⟨3/2, "GBP", "£"⟩),
    ("EU", ⟨3/2, "EUR", "€"⟩),
    ("Canada", ⟨5/2, "CAD", "C$"⟩),
    ("Australia", ⟨2, "AUD", "A$"⟩),
    ("Germany", ⟨3/2, "EUR", "€"⟩),
    ("France", ⟨3/2, "EUR", "€"⟩),
    ("Japan", ⟨200, "JPY", "¥"⟩),
    ("Brazil", ⟨8, "BRL", "R$"⟩),
    ("default", ⟨1, "USD", "$"⟩) ]

/-- `LOCATION_MARKUP.get(customer_location, LOCATION_MARKUP['default'])`
(source line 480). -/
def lookup_location (customer_location : String) : LocationRule :=
  (LOCATION_MARKUP.lookup customer_location).getD ⟨1, "USD", "$"⟩

/-- `MIN_PROFIT_MARGIN = 1.50` (source line 133). -/
def MIN_PROFIT_MARGIN : ℚ := 3/2

/-- `MAX_MARKUP_PERCENT = 50` (source line 134). -/
def MAX_MARKUP_PERCENT : ℚ := 50

/-- The `CACHE_TTL` dictionary (source lines 135–140), as a function from
key to TTL in seconds. -/
def CACHE_TTL (key : String) : ℕ :=
  if key = "available" then 300
  else if key = "taken" then 3600
  else if key = "pricing" then 1800
  else if key = "error" then 60
  else 0

/-- `_convert_to_usd` (source lines 546–562): static exchange rates,
unknown currencies use rate `1.0`. -/
def convert_to_usd (amount : ℚ) (currency : String) : ℚ :=
  let rate : ℚ :=
    if currency = "INR" then 12/1000
    else if currency = "EUR" then 108/100
    else if currency = "GBP" then 127/100
    else if currency = "CAD" then 74/100
    else if currency = "AUD" then 67/100
    else if currency = "JPY" then 67/10000
    else if currency = "BRL" then 18/100
    else 1
  amount * rate

/-- `_convert_from_usd` (source lines 564–579). -/
def convert_from_usd (amount_usd : ℚ) (currency : String) : ℚ :=
  let rate : ℚ :=
    if currency = "INR" then 83
    else if currency = "EUR" then 93/100
    else if currency = "GBP" then 79/100
    else if currency = "CAD" then 135/100
    else if currency = "AUD" then 3/2
    else if currency = "JPY" then 149
    else if currency = "BRL" then 11/2
    else 1
  amount_usd * rate

/-- The price of a response whose `price` field is known to be set; the
default `0` is never reached on the lists `_find_cheapest_available`
builds, since it filters on `price is not None`. -/
def priceV (r : RegistrarResponse) : ℚ := r.price.getD 0

/-- The filter `[r for r in responses if r.available and r.price is not None]`
(source line 460). -/
def availRecords (responses : List RegistrarResponse) : List RegistrarResponse :=
  responses.filter (fun r => r.available && r.price.isSome)

/-- The selection performed by `available_responses.sort(key=lambda x: x.price)`
followed by `[0]` (source lines 466–467): Python's sort is stable, so the
head of the sorted list is the first element of the original list attaining
the minimal price.  This fold keeps the current best and replaces it only
on a strictly smaller price, which returns exactly that first minimum. -/
def stable_min (best : RegistrarResponse) (rest : List RegistrarResponse) : RegistrarResponse :=
  rest.foldl (fun b x => if priceV x < priceV b then x else b) best

/-- `_find_cheapest_available` (source lines 456–467). -/
def find_cheapest_available (responses : List RegistrarResponse) :
    Option RegistrarResponse :=
  match availRecords responses with
  | [] => none
  | b :: rest => some (stable_min b rest)

/-- One entry of `REGISTRAR_APIS` (source lines 35–115); only the fields the
embedded code reads (`avg_price` in parsing, `availability_url`, `timeout`). -/
structure RegistrarConfig where
  availability_url : String
  avg_price : ℚ
  timeout : ℕ := 10
deriving Repr, DecidableEq

/-- The registrar configuration table (source lines 35–115), restricted to
the embedded fields. -/
def REGISTRAR_APIS : List (String × RegistrarConfig) :=
  [ ("porkbun", ⟨"https://porkbun.com/api/json/v3/domain/available/{domain}", 157/20, 8⟩),
    ("namesilo", ⟨"https://www.namesilo.com/api/checkRegisterAvailability", 839/100, 10⟩),
    ("namecheap", ⟨"https://api.namecheap.com/xml.response", 899/100, 10⟩),
    ("name_com", ⟨"https://api.name.com/v4/domains:checkAvailability", 999/100, 8⟩),
    ("godaddy", ⟨"https://api.godaddy.com/v1/domains/available", 1299/100, 10⟩),
    ("hover", ⟨"https://www.hover.com/api/domains/availability", 1099/100, 12⟩),
    ("bigrock", ⟨"https://api.bigrock.in/domains/check", 1199/100, 15⟩),
    ("dynadot", ⟨"https://api.dynadot.com/api3.json", 197/20, 10⟩) ]

/-- The JSON payload fields `_parse_registrar_response` reads via
`data.get(...)` (source lines 391–454); an absent key is `none`.
`rawHasTrue` models the namecheap branch's `'true' in str(data).lower()`. -/
structure ApiData where
  status : Option String := none
  available : Option Bool := none
  price : Option ℚ := none
  premium : Option Bool := none
  purchasePrice : Option ℚ := none
  definitive : Option Bool := none
  rawHasTrue : Bool := false
deriving Repr, DecidableEq

/-- `_parse_registrar_response` (source lines 391–454). -/
def parse_registrar_response (registrar_name domain : String) (data : ApiData)
    (config : RegistrarConfig) : RegistrarResponse :=
  if registrar_name = "porkbun" then
    { registrar := registrar_name, domain := domain,
      available := (data.status = some "SUCCESS") && data.available.getD false,
      price := some (data.price.getD config.avg_price),
      currency := "USD", premium := data.premium.getD false }
  else if registrar_name = "godaddy" then
    { registrar := registrar_name, domain := domain,
      available := data.available.getD false,
      price := some (data.price.getD config.avg_price),
      currency := "USD", premium := data.definitive.getD false }
  else if registrar_name = "namecheap" then
    { registrar := registrar_name, domain := domain,
      available := data.rawHasTrue,
      price := some config.avg_price, currency := "USD" }
  else if registrar_name = "name_com" then
    { registrar := registrar_name, domain := domain,
      available := data.available.getD false,
      price := some (data.purchasePrice.getD config.avg_price),
      currency := "USD" }
  else
    { registrar := registrar_name, domain := domain,
      available := data.available.getD true,
      price := some config.avg_price, currency := "USD" }

/-- The raw outcome of one registrar's HTTP interaction, abstracting the
network: an HTTP response with status code and parsed JSON body, the
per-registrar `asyncio.TimeoutError`, or any other exception (network
error, unparseable payload, ...) with its message. -/
inductive QueryOutcome where
  | response (status : ℕ) (data : ApiData)
  | timedOut
  | failure (msg : String)
deriving Repr, DecidableEq

/-- `true` exactly on the outcomes the source treats as a registrar
failure: a non-200 status, a timeout, or an exception. -/
def outcome_failed (o : QueryOutcome) : Bool :=
  match o with
  | .response status _ => status ≠ 200
  | .timedOut => true
  | .failure _ => true

/-- `_query_single_registrar` (source lines 327–389): non-200 statuses,
timeouts and exceptions are converted into an unavailable response whose
`error` field describes the condition; a 200 response is parsed. -/
def query_single_registrar (registrar_name domain : String)
    (config : RegistrarConfig) (outcome : QueryOutcome) : RegistrarResponse :=
  match outcome with
  | .response status data =>
      if status ≠ 200 then
        { registrar := registrar_name, domain := domain, available := false,
          error := some ("HTTP " ++ toString status) }
      else
        parse_registrar_response registrar_name domain data config
  | .timedOut =>
      { registrar := registrar_name, domain := domain, available := false,
        error := some "Timeout" }
  | .failure msg =>
      { registrar := registrar_name, domain := domain, available := false,
        error := some msg }

/-- `_query_all_registrars` (source lines 293–325).  The fan-out is given as
one `QueryOutcome` per configured registrar, plus the flag saying whether
the overall 20-second `asyncio.wait_for` deadline fired.  When it fires,
the `except asyncio.TimeoutError` handler returns the empty list (line
325); otherwise every task's response is collected (each task returns a
`RegistrarResponse` in all branches, so the `isinstance` filter of lines
314–320 keeps everything). -/
def query_all_registrars (domain : String)
    (outcomes : List (String × RegistrarConfig × QueryOutcome))
    (overall_deadline_fired : Bool) : List RegistrarResponse :=
  if overall_deadline_fired then []
  else outcomes.map (fun t => query_single_registrar t.1 domain t.2.1 t.2.2)

/-- The USD customer price computed by `_apply_geographic_markup`
(source lines 489–499): wholesale plus markup, raised to the
minimum-profit floor, then clamped to the maximum-markup ceiling. -/
def compute_customer_price_usd (wholesale_price markup_usd : ℚ) : ℚ :=
  let customer_price_usd := wholesale_price + markup_usd
  let customer_price_usd :=
    if customer_price_usd - wholesale_price < MIN_PROFIT_MARGIN then
      wholesale_price + MIN_PROFIT_MARGIN
    else customer_price_usd
  let max_allowed_price := wholesale_price * (1 + MAX_MARKUP_PERCENT / 100)
  if customer_price_usd > max_allowed_price then max_allowed_price
  else customer_price_usd

/-- `wholesale_price * (1 + MAX_MARKUP_PERCENT / 100)` (source line 497). -/
def max_allowed_price (wholesale_price : ℚ) : ℚ :=
  wholesale_price * (1 + MAX_MARKUP_PERCENT / 100)

/-- The markup amount in USD for a location rule (source lines 483–487). -/
def markup_usd_of (location_config : LocationRule) : ℚ :=
  if location_config.currency = "USD" then location_config.amount
  else convert_to_usd location_config.amount location_config.currency

/-- `_apply_geographic_markup` (source lines 469–523).  The one raising
operation in its body is `margin_usd / wholesale_price` at line 509, a
`ZeroDivisionError` when the selected wholesale price is `0`; it is
modelled with `Except.error`. -/
def apply_geographic_markup (domain : String)
    (cheapest_response : RegistrarResponse) (customer_location : String)
    (registrar_responses : Option (List RegistrarResponse)) :
    Except String DomainPriceResult :=
  let wholesale_price := cheapest_response.price.getD 0
  let location_config := lookup_location customer_location
  let markup_usd := markup_usd_of location_config
  let customer_price_usd := compute_customer_price_usd wholesale_price markup_usd
  let customer_price :=
    if location_config.currency = "USD" then customer_price_usd
    else convert_from_usd customer_price_usd location_config.currency
  let margin_usd := customer_price_usd - wholesale_price
  if wholesale_price = 0 then Except.error "ZeroDivisionError"
  else Except.ok
    { domain := domain,
      wholesale_price := wholesale_price,
      wholesale_registrar := cheapest_response.registrar,
      customer_price := customer_price,
      customer_currency := location_config.currency,
      customer_symbol := location_config.symbol,
      margin_amount := margin_usd,
      margin_percent := margin_usd / wholesale_price * 100,
      available := true,
      premium := cheapest_response.premium,
      registrar_responses := registrar_responses.getD [] }

/-- `_create_unavailable_result` (source lines 525–544). -/
def create_unavailable_result (domain : String)
    (registrar_responses : List RegistrarResponse) : DomainPriceResult :=
  { domain := domain, wholesale_price := 0, wholesale_registrar := "none",
    customer_price := 0, customer_currency := "USD", customer_symbol := "$",
    margin_amount := 0, margin_percent := 0, available := false,
    registrar_responses := registrar_responses }

/-- The error result built by the `except Exception` handler of
`get_domain_pricing` (source lines 280–291). -/
def error_result (domain : String) : DomainPriceResult :=
  { domain := domain, wholesale_price := 0, wholesale_registrar := "error",
    customer_price := 0, customer_currency := "USD", customer_symbol := "$",
    margin_amount := 0, margin_percent := 0, available := false }

/-- `cache_key = f"domain_pricing:{domain}:{customer_location}"`
(source line 237). -/
def cache_key (domain customer_location : String) : String :=
  "domain_pricing:" ++ domain ++ ":" ++ customer_location

/-- The computational core of `get_domain_pricing` (source lines 244–291):
everything inside the `try:` block, given the collected registrar
responses.  The returned pair is the quote and the cache write the call
performs (`cache.set` key and TTL, lines 263–265), `none` when no write
happens: the early `_create_unavailable_result` return of line 253 and the
exception handler of lines 274–291 both skip the `cache.set` line. -/
def get_domain_pricing_core (domain customer_location : String)
    (include_registrar_details : Bool)
    (registrar_responses : List RegistrarResponse) :
    DomainPriceResult × Option (String × ℕ) :=
  match find_cheapest_available registrar_responses with
  | none => (create_unavailable_result domain registrar_responses, none)
  | some cheapest_response =>
      if cheapest_response.available = false then
        (create_unavailable_result domain registrar_responses, none)
      else
        match apply_geographic_markup domain cheapest_response customer_location
            (if include_registrar_details then some registrar_responses else none) with
        | Except.error _ => (error_result domain, none)
        | Except.ok pricing_result =>
            let cache_ttl :=
              if pricing_result.available then CACHE_TTL "available"
              else CACHE_TTL "taken"
            (pricing_result, some (cache_key domain customer_location, cache_ttl))

/-- `get_domain_pricing` (source lines 225–291) with the cache read
abstracted: `cached` is what `cache.get(cache_key)` returned.  A cache hit
with `include_registrar_details = false` is returned as-is with no write
(lines 240–242); otherwise the core computation runs. -/
def get_domain_pricing (domain customer_location : String)
    (include_registrar_details : Bool) (cached : Option DomainPriceResult)
    (registrar_responses : List RegistrarResponse) :
    DomainPriceResult × Option (String × ℕ) :=
  match cached, include_registrar_details with
  | some cached_result, false => (cached_result, none)
  | _, _ =>
      get_domain_pricing_core domain customer_location
        include_registrar_details registrar_responses

/-- `bulk_check_domains` (source lines 591–608): the per-domain
`get_domain_pricing` calls are gathered with `return_exceptions=True` and
anything that is not a `DomainPriceResult` (i.e. a raised exception) is
dropped.  The input is the list of per-domain outcomes. -/
def bulk_check_domains
    (results : List (Except String DomainPriceResult)) :
    List DomainPriceResult :=
  results.filterMap (fun result =>
    match result with
    | Except.ok valid => some valid
    | Except.error _ => none)

/-! ### Concrete records for the spec's scenarios -/

/-- Scenario registrar A: available at $10. -/
def regA : RegistrarResponse :=
  ⟨"A", "example.com", true, some 10, "USD", false, 0, none⟩

/-- Scenario registrar B: available at $8 (the cheapest). -/
def regB : RegistrarResponse :=
  ⟨"B", "example.com", true, some 8, "USD", false, 0, none⟩

/-- Scenario registrar C: unavailable. -/
def regC : RegistrarResponse :=
  ⟨"C", "example.com", false, none, "USD", false, 0, none⟩

/-- The quote produced for the A/B/C scenario at location "US". -/
def quoteB : DomainPriceResult :=
  ⟨"example.com", 8, "B", 10, "USD", "$", 2, 25, true, false, []⟩

/-- A registrar offering a domain at exactly $1.00. -/
def one_dollar_resp : RegistrarResponse :=
  ⟨"X", "cheap.com", true, some 1, "USD", false, 0, none⟩

/-- The quote produced for the $1.00 wholesale price at location "US":
the 50% ceiling caps the USD customer price at $1.50. -/
def ceiling_quote : DomainPriceResult :=
  ⟨"cheap.com", 1, "X", 3/2, "USD", "$", 1/2, 50, true, false, []⟩

/-- A registrar reporting the domain available at price exactly `0`. -/
def zero_resp : RegistrarResponse :=
  ⟨"Z", "zero.com", true, some 0, "USD", false, 0, none⟩

/-- The porkbun entry of `REGISTRAR_APIS`. -/
def porkbun_config : RegistrarConfig :=
  ⟨"https://porkbun.com/api/json/v3/domain/available/{domain}", 157/20, 8⟩

/-- The record produced when the porkbun query raises a network error. -/
def failed_record : RegistrarResponse :=
  query_single_registrar "porkbun" "x.com" porkbun_config
    (QueryOutcome.failure "Connection refused")

/-- The record produced when porkbun answers 200 with a well-formed
"domain taken" payload. -/
def taken_record : RegistrarResponse :=
  query_single_registrar "porkbun" "x.com" porkbun_config
    (QueryOutcome.response 200 ⟨some "SUCCESS", some false, none, none, none, none, false⟩)

/-- The record produced when the porkbun query times out. -/
def timeout_record : RegistrarResponse :=
  query_single_registrar "porkbun" "x.com" porkbun_config QueryOutcome.timedOut

/-- A successful porkbun outcome: 200, available at $8.49. -/
def good_outcome : QueryOutcome :=
  QueryOutcome.response 200 ⟨some "SUCCESS", some true, some (849/100), none, none, none, false⟩

/-! ### Helper lemmas about the stable cheapest-selection -/

theorem stable_min_cons (best x : RegistrarResponse) (l : List RegistrarResponse) :
    stable_min best (x :: l)
      = stable_min (if priceV x < priceV best then x else best) l := rfl

theorem stable_min_le (l : List RegistrarResponse) :
    ∀ best, ∀ r ∈ best :: l, priceV (stable_min best l) ≤ priceV r := by
  induction l with
  | nil =>
      intro best r hr
      rcases List.mem_cons.mp hr with h | h
      · subst h; exact le_refl _
      · cases h
  | cons x xs ih =>
      intro best r hr
      rw [stable_min_cons]
      rcases List.mem_cons.mp hr with h | h
      · subst h
        by_cases hc : priceV x < priceV r
        · rw [if_pos hc]
          exact le_trans (ih x x (List.mem_cons_self x xs)) (le_of_lt hc)
        · rw [if_neg hc]
          exact ih r r (List.mem_cons_self r xs)
      · rcases List.mem_cons.mp h with h2 | h2
        · subst h2
          by_cases hc : priceV r < priceV best
          · rw [if_pos hc]
            exact ih r r (List.mem_cons_self r xs)
          · rw [if_neg hc]
            exact le_trans (ih best best (List.mem_cons_self best xs)) (not_lt.mp hc)
        · by_cases hc : priceV x < priceV best
          · rw [if_pos hc]
            exact ih x r (List.mem_cons_of_mem x h2)
          · rw [if_neg hc]
            exact ih best r (List.mem_cons_of_mem best h2)

theorem stable_min_first (l : List RegistrarResponse) :
    ∀ best, ∃ l1 l2, best :: l = l1 ++ stable_min best l :: l2
      ∧ (∀ r ∈ l1, priceV (stable_min best l) < priceV r)
      ∧ (∀ r ∈ l2, priceV (stable_min best l) ≤ priceV r) := by
  induction l with
  | nil =>
      intro best
      refine ⟨[], [], rfl, ?_, ?_⟩
      · intro r hr; cases hr
      · intro r hr; cases hr
  | cons x xs ih =>
      intro best
      by_cases hc : priceV x < priceV best
      · have hb : stable_min best (x :: xs) = stable_min x xs := by
          rw [stable_min_cons, if_pos hc]
        obtain ⟨l1, l2, heq, h1, h2⟩ := ih x
        refine ⟨best :: l1, l2, ?_, ?_, ?_⟩
        · rw [hb]
          calc best :: x :: xs = best :: (l1 ++ stable_min x xs :: l2) := by rw [← heq]
          _ = (best :: l1) ++ stable_min x xs :: l2 := rfl
        · intro r hr
          rw [hb]
          rcases List.mem_cons.mp hr with h | h
          · subst h
            exact lt_of_le_of_lt (stable_min_le xs x x (List.mem_cons_self x xs)) hc
          · exact h1 r h
        · intro r hr; rw [hb]; exact h2 r hr
      · have hb : stable_min best (x :: xs) = stable_min best xs := by
          rw [stable_min_cons, if_neg hc]
        have hbx : priceV best ≤ priceV x := not_lt.mp hc
        obtain ⟨l1, l2, heq, h1, h2⟩ := ih best
        cases l1 with
        | nil =>
            simp only [List.nil_append] at heq
            injection heq with e1 e2
            refine ⟨[], x :: xs, ?_, ?_, ?_⟩
            · rw [hb, ← e1]
              simp
            · intro r hr; cases hr
            · intro r hr
              rw [hb, ← e1]
              rcases List.mem_cons.mp hr with h | h
              · subst h; exact hbx
              · have hmem : r ∈ l2 := by rw [← e2]; exact h
                have := h2 r hmem
                rw [← e1] at this
                exact this
        | cons b l1t =>
            simp only [List.cons_append] at heq
            injection heq with e1 e2
            refine ⟨best :: x :: l1t, l2, ?_, ?_, ?_⟩
            · rw [hb]
              show best :: x :: xs = best :: x :: (l1t ++ stable_min best xs :: l2)
              exact congrArg (fun t => best :: x :: t) e2
            · intro r hr
              rw [hb]
              have hmb : priceV (stable_min best xs) < priceV best := by
                have := h1 b (List.mem_cons_self b l1t)
                rw [← e1] at this; exact this
              rcases List.mem_cons.mp hr with h | h
              · subst h; exact hmb
              · rcases List.mem_cons.mp h with h3 | h3
                · subst h3; exact lt_of_lt_of_le hmb hbx
                · exact h1 r (List.mem_cons_of_mem b h3)
            · intro r hr; rw [hb]; exact h2 r hr

theorem find_cheapest_first_min (rs : List RegistrarResponse) (c : RegistrarResponse)
    (h : find_cheapest_available rs = some c) :
    ∃ l1 l2, availRecords rs = l1 ++ c :: l2
      ∧ (∀ r ∈ l1, priceV c < priceV r)
      ∧ (∀ r ∈ l2, priceV c ≤ priceV r) := by
  unfold find_cheapest_available at h
  rcases hA : availRecords rs with _ | ⟨b, rest⟩
  · rw [hA] at h; cases h
  · rw [hA] at h
    injection h with h
    obtain ⟨l1, l2, heq, h1, h2⟩ := stable_min_first rest b
    rw [h] at heq h1 h2
    exact ⟨l1, l2, heq, h1, h2⟩

theorem find_cheapest_spec (rs : List RegistrarResponse) (c : RegistrarResponse)
    (h : find_cheapest_available rs = some c) :
    c.available = true ∧ c.price.isSome = true := by
  obtain ⟨l1, l2, heq, -, -⟩ := find_cheapest_first_min rs c h
  have hmem : c ∈ rs.filter (fun r => r.available && r.price.isSome) := by
    have : c ∈ availRecords rs := by
      rw [heq]
      exact List.mem_append.mpr (Or.inr (List.mem_cons_self c l2))
    simpa [availRecords] using this
  have hp := List.of_mem_filter hmem
  simpa [Bool.and_eq_true] using hp

theorem find_cheapest_none (rs : List RegistrarResponse)
    (h : find_cheapest_available rs = none) : availRecords rs = [] := by
  unfold find_cheapest_available at h
  rcases hA : availRecords rs with _ | ⟨b, rest⟩
  · rfl
  · rw [hA] at h; cases h

/-! ### Helper lemmas about the markup computation -/

theorem compute_le_max (w m : ℚ) :
    compute_customer_price_usd w m ≤ max_allowed_price w := by
  unfold compute_customer_price_usd max_allowed_price
  dsimp only
  split_ifs with h1 h2 h3 <;> linarith

theorem compute_floor_or_ceiling (w m : ℚ) :
    MIN_PROFIT_MARGIN ≤ compute_customer_price_usd w m - w
    ∨ compute_customer_price_usd w m = max_allowed_price w := by
  unfold compute_customer_price_usd max_allowed_price
  dsimp only
  split_ifs with h1 h2 h3
  · exact Or.inr rfl
  · left; linarith
  · exact Or.inr rfl
  · left; linarith

theorem apply_ok_fields (d : String) (ch : RegistrarResponse) (loc : String)
    (det : Option (List RegistrarResponse)) (q : DomainPriceResult)
    (h : apply_geographic_markup d ch loc det = Except.ok q) :
    q.available = true
    ∧ q.wholesale_price = ch.price.getD 0
    ∧ q.wholesale_price + q.margin_amount
        = compute_customer_price_usd (ch.price.getD 0)
            (markup_usd_of (lookup_location loc)) := by
  unfold apply_geographic_markup at h
  dsimp only at h
  by_cases h0 : ch.price.getD 0 = 0
  · rw [if_pos h0] at h; cases h
  · rw [if_neg h0] at h
    injection h with h
    subst h
    refine ⟨rfl, rfl, ?_⟩
    dsimp only
    ring

theorem apply_error_imp (d : String) (ch : RegistrarResponse) (loc : String)
    (det : Option (List RegistrarResponse)) (e : String)
    (h : apply_geographic_markup d ch loc det = Except.error e) :
    ch.price.getD 0 = 0 := by
  unfold apply_geographic_markup at h
  dsimp only at h
  by_cases h0 : ch.price.getD 0 = 0
  · exact h0
  · rw [if_neg h0] at h; cases h

theorem apply_zero (d : String) (ch : RegistrarResponse) (loc : String)
    (det : Option (List RegistrarResponse)) (h : ch.price.getD 0 = 0) :
    apply_geographic_markup d ch loc det = Except.error "ZeroDivisionError" := by
  unfold apply_geographic_markup
  dsimp only
  rw [if_pos h]

/-! ### A case analysis of the pricing core -/

theorem core_of_find_none (d loc : String) (det : Bool)
    (rs : List RegistrarResponse) (h : find_cheapest_available rs = none) :
    get_domain_pricing_core d loc det rs = (create_unavailable_result d rs, none) := by
  unfold get_domain_pricing_core
  rw [h]

theorem core_cases (d loc : String) (det : Bool) (rs : List RegistrarResponse) :
    get_domain_pricing_core d loc det rs = (create_unavailable_result d rs, none)
    ∨ get_domain_pricing_core d loc det rs = (error_result d, none)
    ∨ ∃ q, get_domain_pricing_core d loc det rs
        = (q, some (cache_key d loc, CACHE_TTL "available")) ∧ q.available = true := by
  rcases hfind : find_cheapest_available rs with _ | c
  · rw [core_of_find_none d loc det rs hfind]
    exact Or.inl rfl
  · unfold get_domain_pricing_core
    rw [hfind]
    dsimp only
    by_cases hca : c.available = false
    · rw [if_pos hca]
      exact Or.inl rfl
    · rw [if_neg hca]
      rcases happ : apply_geographic_markup d c loc
          (if det then some rs else none) with e | q
      · exact Or.inr (Or.inl rfl)
      · have hq := (apply_ok_fields d c loc _ q happ).1
        refine Or.inr (Or.inr ⟨q, ?_, hq⟩)
        dsimp only
        rw [hq]
        rfl

theorem lookup_location_US : lookup_location "US" = ⟨2, "USD", "$"⟩ := rfl

/-! ## The claims -/

/-- C1: for every list of registrar records, the wholesale offer selected by
`_find_cheapest_available` is the record with minimum price among records
with `available = true` and a non-null price, and on ties it is the first
such record in received order (there are no strictly cheaper records before
it and no strictly cheaper or equal-and-earlier records anywhere); when no
record qualifies the selection is empty.  In the A/B/C scenario the
selected record is B with wholesale price 8. -/
theorem C1_cheapest_selection :
    (∀ (rs : List RegistrarResponse) (c : RegistrarResponse),
      find_cheapest_available rs = some c →
      ∃ l1 l2, availRecords rs = l1 ++ c :: l2
        ∧ (∀ r ∈ l1, priceV c < priceV r)
        ∧ (∀ r ∈ l2, priceV c ≤ priceV r))
    ∧ (∀ rs : List RegistrarResponse,
      find_cheapest_available rs = none → availRecords rs = [])
    ∧ find_cheapest_available [regA, regB, regC] = some regB
    ∧ regB.registrar = "B" ∧ regB.price = some 8 := by
  refine ⟨find_cheapest_first_min, find_cheapest_none, ?_, rfl, rfl⟩
  decide

/-- Witness for C1 at the concrete A/B/C scenario input. -/
theorem C1_cheapest_selection_witness :
    availRecords [regC] = []
    ∧ find_cheapest_available [regA, regB, regC] = some regB :=
  ⟨C1_cheapest_selection.2.1 [regC] (by decide), C1_cheapest_selection.2.2.1⟩

/-- C2: for every quote computed by `_apply_geographic_markup` (every
available-priced quote), the USD margin (which equals the USD customer
price minus the wholesale price) is at least `MIN_PROFIT_MARGIN`, or the
maximum-markup ceiling was binding (the USD customer price equals the
ceiling).  When the two rules conflict the ceiling wins: for wholesale
price $1.00 at location "US" (markup $2.00), the final USD customer price
is exactly $1.50, not $2.50 or $3.00. -/
theorem C2_margin_floor_or_ceiling :
    (∀ (d : String) (ch : RegistrarResponse) (loc : String)
        (det : Option (List RegistrarResponse)) (q : DomainPriceResult),
      apply_geographic_markup d ch loc det = Except.ok q →
      MIN_PROFIT_MARGIN ≤ q.margin_amount
      ∨ q.wholesale_price + q.margin_amount = max_allowed_price q.wholesale_price)
    ∧ apply_geographic_markup "cheap.com" one_dollar_resp "US" none
        = Except.ok ceiling_quote
    ∧ ceiling_quote.customer_price = 3/2
    ∧ ceiling_quote.customer_price ≠ 5/2
    ∧ ceiling_quote.customer_price ≠ 3 := by
  refine ⟨?_, ?_, rfl, by norm_num [ceiling_quote], by norm_num [ceiling_quote]⟩
  · intro d ch loc det q h
    obtain ⟨hav, hw, hsum⟩ := apply_ok_fields d ch loc det q h
    rcases compute_floor_or_ceiling (ch.price.getD 0)
        (markup_usd_of (lookup_location loc)) with hfl | hcl
    · left
      linarith [hsum, hw]
    · right
      calc q.wholesale_price + q.margin_amount
          = compute_customer_price_usd (ch.price.getD 0)
              (markup_usd_of (lookup_location loc)) := hsum
        _ = max_allowed_price (ch.price.getD 0) := hcl
        _ = max_allowed_price q.wholesale_price := by rw [hw]
  · have hmark : markup_usd_of (lookup_location "US") = 2 := rfl
    have hcomp : compute_customer_price_usd 1 2 = 3/2 := by
      unfold compute_customer_price_usd MIN_PROFIT_MARGIN MAX_MARKUP_PERCENT
      norm_num
    unfold apply_geographic_markup
    dsimp only [one_dollar_resp]
    rw [if_neg (by norm_num)]
    rw [Except.ok.injEq]
    show (⟨"cheap.com", 1, "X", compute_customer_price_usd 1 (markup_usd_of (lookup_location "US")),
      "USD", "$", compute_customer_price_usd 1 (markup_usd_of (lookup_location "US")) - 1,
      (compute_customer_price_usd 1 (markup_usd_of (lookup_location "US")) - 1) / 1 * 100,
      true, false, []⟩ : DomainPriceResult) = ceiling_quote
    rw [hmark, hcomp]
    unfold ceiling_quote
    norm_num

/-- Witness for C2 at the $1.00-wholesale scenario: the floor/ceiling
disjunction instantiated at the ceiling-capped quote. -/
theorem C2_margin_floor_or_ceiling_witness :
    MIN_PROFIT_MARGIN ≤ ceiling_quote.margin_amount
    ∨ ceiling_quote.wholesale_price + ceiling_quote.margin_amount
        = max_allowed_price ceiling_quote.wholesale_price :=
  C2_margin_floor_or_ceiling.1 "cheap.com" one_dollar_resp "US" none ceiling_quote
    C2_margin_floor_or_ceiling.2.1

/-- C3: for every quote computed by the markup step, the USD customer
price (wholesale price plus USD margin) never exceeds
`wholesale_price * (1 + MAX_MARKUP_PERCENT / 100)`, i.e. 1.5 times the
wholesale price; for unavailable quotes (both the taken-domain result and
the internal-error result) all price fields are zero, so both sides of
the bound are zero. -/
theorem C3_markup_ceiling :
    (∀ w m : ℚ, compute_customer_price_usd w m ≤ max_allowed_price w)
    ∧ (∀ (d : String) (ch : RegistrarResponse) (loc : String)
        (det : Option (List RegistrarResponse)) (q : DomainPriceResult),
      apply_geographic_markup d ch loc det = Except.ok q →
      q.wholesale_price + q.margin_amount
        ≤ q.wholesale_price * (1 + MAX_MARKUP_PERCENT / 100))
    ∧ (∀ (d : String) (rs : List RegistrarResponse),
      (create_unavailable_result d rs).customer_price = 0
      ∧ (create_unavailable_result d rs).wholesale_price = 0
      ∧ (create_unavailable_result d rs).margin_amount = 0)
    ∧ (∀ d : String, (error_result d).customer_price = 0
      ∧ (error_result d).wholesale_price = 0
      ∧ (error_result d).margin_amount = 0) := by
  refine ⟨compute_le_max, ?_, fun d rs => ⟨rfl, rfl, rfl⟩, fun d => ⟨rfl, rfl, rfl⟩⟩
  intro d ch loc det q h
  obtain ⟨-, hw, hsum⟩ := apply_ok_fields d ch loc det q h
  have hle := compute_le_max (ch.price.getD 0) (markup_usd_of (lookup_location loc))
  rw [hsum, hw]
  simpa [max_allowed_price] using hle

/-- Witness for C3 at the A/B/C scenario quote. -/
theorem C3_markup_ceiling_witness :
    quoteB.wholesale_price + quoteB.margin_amount
      ≤ quoteB.wholesale_price * (1 + MAX_MARKUP_PERCENT / 100) :=
  C3_markup_ceiling.2.1 "example.com" regB "US" none quoteB (by
    have hmark : markup_usd_of (lookup_location "US") = 2 := rfl
    have hcomp : compute_customer_price_usd 8 2 = 10 := by
      unfold compute_customer_price_usd MIN_PROFIT_MARGIN MAX_MARKUP_PERCENT
      norm_num
    unfold apply_geographic_markup
    dsimp only [regB]
    rw [if_neg (by norm_num)]
    rw [Except.ok.injEq]
    simp only [Option.getD_some, Option.getD_none]
    rw [hmark, hcomp]
    unfold quoteB
    norm_num [lookup_location_US])

/-- C4 counterexample: the claim says every quote with `available = false`
carries the sentinel registrar "none", whatever caused the
unavailability.  But on a registrar list whose cheapest available record
is priced exactly 0, the internal `ZeroDivisionError` is converted by the
exception handler into a quote with `available = false` whose registrar
sentinel is "error", not "none". -/
theorem C4_unavailable_zeroing_counterexample :
    (get_domain_pricing_core "zero.com" "US" false [zero_resp]).1.available = false
    ∧ (get_domain_pricing_core "zero.com" "US" false [zero_resp]).1.wholesale_registrar
        = "error"
    ∧ "error" ≠ "none" := by
  refine ⟨rfl, rfl, by decide⟩

/-- C4 amended: for every quote computed by `get_domain_pricing` with
`available = false`, all price fields are zero and the registrar sentinel
is "none" for the no-available-registrar path and "error" for the
internal-exception path. -/
theorem C4_unavailable_zeroing_amended :
    ∀ (d loc : String) (det : Bool) (rs : List RegistrarResponse),
      (get_domain_pricing_core d loc det rs).1.available = false →
      (get_domain_pricing_core d loc det rs).1.wholesale_price = 0
      ∧ (get_domain_pricing_core d loc det rs).1.customer_price = 0
      ∧ (get_domain_pricing_core d loc det rs).1.margin_amount = 0
      ∧ (get_domain_pricing_core d loc det rs).1.margin_percent = 0
      ∧ ((get_domain_pricing_core d loc det rs).1.wholesale_registrar = "none"
        ∨ (get_domain_pricing_core d loc det rs).1.wholesale_registrar = "error") := by
  intro d loc det rs hav
  rcases core_cases d loc det rs with h | h | ⟨q, h, hq⟩
  · rw [h]
    exact ⟨rfl, rfl, rfl, rfl, Or.inl rfl⟩
  · rw [h]
    exact ⟨rfl, rfl, rfl, rfl, Or.inr rfl⟩
  · have hav2 : q.available = false := by rw [h] at hav; exact hav
    rw [hq] at hav2
    exact Bool.noConfusion hav2

/-- Witness for the amended C4 at an empty registrar list. -/
theorem C4_unavailable_zeroing_amended_witness :
    (get_domain_pricing_core "nodomain.com" "US" false []).1.wholesale_price = 0
    ∧ (get_domain_pricing_core "nodomain.com" "US" false []).1.customer_price = 0
    ∧ (get_domain_pricing_core "nodomain.com" "US" false []).1.margin_amount = 0
    ∧ (get_domain_pricing_core "nodomain.com" "US" false []).1.margin_percent = 0
    ∧ ((get_domain_pricing_core "nodomain.com" "US" false []).1.wholesale_registrar = "none"
      ∨ (get_domain_pricing_core "nodomain.com" "US" false []).1.wholesale_registrar
          = "error") :=
  C4_unavailable_zeroing_amended "nodomain.com" "US" false [] rfl

/-- C5 counterexample: the all-registrars-failed outcome is conflated with
the domain-taken outcome.  A run where the single registrar fails with a
connection error and a run where it answers "taken" produce quotes equal
in availability, registrar sentinel ("none" in both), wholesale price and
customer price; the two inputs are distinguishable (one record has an
error string, the other has none), the surfaced outcomes are not. -/
theorem C5_conflation_counterexample :
    (get_domain_pricing_core "x.com" "US" false [failed_record]).1.available
        = (get_domain_pricing_core "x.com" "US" false [taken_record]).1.available
    ∧ (get_domain_pricing_core "x.com" "US" false [failed_record]).1.wholesale_registrar
        = (get_domain_pricing_core "x.com" "US" false [taken_record]).1.wholesale_registrar
    ∧ (get_domain_pricing_core "x.com" "US" false [failed_record]).1.wholesale_price
        = (get_domain_pricing_core "x.com" "US" false [taken_record]).1.wholesale_price
    ∧ (get_domain_pricing_core "x.com" "US" false [failed_record]).1.customer_price
        = (get_domain_pricing_core "x.com" "US" false [taken_record]).1.customer_price
    ∧ (get_domain_pricing_core "x.com" "US" false [failed_record]).1.wholesale_registrar
        = "none"
    ∧ failed_record.error ≠ none ∧ taken_record.error = none := by
  refine ⟨rfl, rfl, rfl, rfl, rfl, by decide, rfl⟩

/-- C5 amended: whenever every registrar record reports unavailability —
in particular when every registrar failed, since failures are recorded as
unavailable records — `get_domain_pricing` returns the same
`_create_unavailable_result` quote (registrar "none", zero prices) as for
a taken domain, with no distinct failure surfaced; only the attached
per-registrar records (their error fields) differ between the two cases. -/
theorem C5_all_failed_conflated_amended :
    ∀ (d loc : String) (det : Bool) (rs : List RegistrarResponse),
      (∀ r ∈ rs, r.available = false) →
      get_domain_pricing_core d loc det rs
        = (create_unavailable_result d rs, none) := by
  intro d loc det rs hall
  have hfilter : availRecords rs = [] := by
    unfold availRecords
    refine List.filter_eq_nil_iff.mpr ?_
    intro r hr
    simp [hall r hr]
  have hnone : find_cheapest_available rs = none := by
    unfold find_cheapest_available
    rw [hfilter]
  exact core_of_find_none d loc det rs hnone

/-- Witness for the amended C5 at the single-failed-registrar input. -/
theorem C5_all_failed_conflated_amended_witness :
    get_domain_pricing_core "x.com" "US" false [failed_record]
      = (create_unavailable_result "x.com" [failed_record], none) :=
  C5_all_failed_conflated_amended "x.com" "US" false [failed_record] (by decide)

/-- C6: a failing registrar interaction (non-200 status, timeout or
exception) is converted by `_query_single_registrar` into a record of its
own carrying the error string and `available = false` — it never raises —
and such an unavailable record is transparent to the cheapest-available
selection: dropping it from the received list does not change the
selection, so the remaining registrars' successful records are still
used. -/
theorem C6_failure_isolation :
    (∀ (registrar_name d : String) (cfg : RegistrarConfig) (o : QueryOutcome),
      outcome_failed o = true →
      (query_single_registrar registrar_name d cfg o).error ≠ none
      ∧ (query_single_registrar registrar_name d cfg o).available = false)
    ∧ (∀ (rs1 rs2 : List RegistrarResponse) (r : RegistrarResponse),
      r.available = false →
      find_cheapest_available (rs1 ++ r :: rs2)
        = find_cheapest_available (rs1 ++ rs2)) := by
  constructor
  · intro n d cfg o ho
    cases o with
    | response status data =>
        have hs : status ≠ 200 := by simpa [outcome_failed] using ho
        unfold query_single_registrar
        dsimp only
        rw [if_pos hs]
        exact ⟨by simp, rfl⟩
    | timedOut => exact ⟨by simp [query_single_registrar], rfl⟩
    | failure msg => exact ⟨by simp [query_single_registrar], rfl⟩
  · intro rs1 rs2 r hr
    have hsame : availRecords (rs1 ++ r :: rs2) = availRecords (rs1 ++ rs2) := by
      unfold availRecords
      rw [List.filter_append, List.filter_append, List.filter_cons]
      simp [hr]
    unfold find_cheapest_available
    rw [hsame]

/-- Witness for C6: the porkbun timeout record and its transparency to
selection in the A/B scenario. -/
theorem C6_failure_isolation_witness :
    ((query_single_registrar "porkbun" "x.com" porkbun_config QueryOutcome.timedOut).error
        ≠ none
    ∧ (query_single_registrar "porkbun" "x.com" porkbun_config
        QueryOutcome.timedOut).available = false)
    ∧ find_cheapest_available ([regA] ++ timeout_record :: [regB])
        = find_cheapest_available ([regA] ++ [regB]) :=
  ⟨C6_failure_isolation.1 "porkbun" "x.com" porkbun_config QueryOutcome.timedOut rfl,
   C6_failure_isolation.2 [regA] [regB] timeout_record rfl⟩

/-- C7 counterexample: the claim says responses already received when the
overall 20-second deadline fires are retained.  But the timeout handler
of `_query_all_registrars` returns the empty list: even a registrar whose
successful, available response had been received is discarded, so nothing
participates in selection. -/
theorem C7_deadline_counterexample :
    query_all_registrars "x.com" [("porkbun", porkbun_config, good_outcome)] true = []
    ∧ (query_single_registrar "porkbun" "x.com" porkbun_config good_outcome).available
        = true
    ∧ (query_single_registrar "porkbun" "x.com" porkbun_config good_outcome).error
        = none := by
  refine ⟨rfl, by decide, rfl⟩

/-- C7 amended: when the overall 20-second deadline fires,
`_query_all_registrars` discards every registrar response — including the
ones already received — and returns the empty list (so the pricing core
sees no responses at all); only when the deadline does not fire is every
registrar outcome converted into its record and used. -/
theorem C7_deadline_discards_all_amended :
    (∀ (d : String) (outs : List (String × RegistrarConfig × QueryOutcome)),
      query_all_registrars d outs true = [])
    ∧ (∀ (d : String) (outs : List (String × RegistrarConfig × QueryOutcome)),
      query_all_registrars d outs false
        = outs.map (fun t => query_single_registrar t.1 d t.2.1 t.2.2)) :=
  ⟨fun _ _ => rfl, fun _ _ => rfl⟩

/-- C8: the cache-write behaviour of `get_domain_pricing`.  The spec and
the source's own `CACHE_TTL` table intend unavailable quotes to be cached
for 3600 seconds, but the code returns the unavailable (and the error)
quote before ever reaching the `cache.set` call: a computed quote is
written to the cache — under the key derived from (domain, location) with
the 300-second TTL — exactly when it is available, and no write at all
happens otherwise, as the taken-domain evaluation shows.  The
`CACHE_TTL "taken"` branch of the TTL selection is dead code. -/
theorem C8_cache_write_policy :
    (∀ (d loc : String) (det : Bool) (rs : List RegistrarResponse),
      (get_domain_pricing_core d loc det rs).2
        = if (get_domain_pricing_core d loc det rs).1.available
          then some (cache_key d loc, CACHE_TTL "available") else none)
    ∧ CACHE_TTL "available" = 300 ∧ CACHE_TTL "taken" = 3600
    ∧ (get_domain_pricing_core "x.com" "US" false [taken_record]).1.available = false
    ∧ (get_domain_pricing_core "x.com" "US" false [taken_record]).2 = none := by
  refine ⟨?_, rfl, rfl, rfl, rfl⟩
  intro d loc det rs
  rcases core_cases d loc det rs with h | h | ⟨q, h, hq⟩
  · rw [h]; rfl
  · rw [h]; rfl
  · rw [h]
    dsimp only
    rw [hq]
    rfl

/-- C9: `bulk_check_domains` keeps the quotes of the domains whose pricing
call returned and silently drops the ones whose call raised, so its
output is never longer than its input, a raising domain is omitted
without affecting the others, and a returned quote is kept in place. -/
theorem C9_bulk_best_effort :
    (∀ results : List (Except String DomainPriceResult),
      (bulk_check_domains results).length ≤ results.length)
    ∧ (∀ (l1 l2 : List (Except String DomainPriceResult)) (e : String),
      bulk_check_domains (l1 ++ Except.error e :: l2)
        = bulk_check_domains (l1 ++ l2))
    ∧ (∀ (l1 l2 : List (Except String DomainPriceResult)) (q : DomainPriceResult),
      bulk_check_domains (l1 ++ Except.ok q :: l2)
        = bulk_check_domains l1 ++ q :: bulk_check_domains l2) := by
  refine ⟨?_, ?_, ?_⟩
  · intro results
    exact List.length_filterMap_le _ _
  · intro l1 l2 e
    simp [bulk_check_domains, List.filterMap_append, List.filterMap_cons]
  · intro l1 l2 q
    simp [bulk_check_domains, List.filterMap_append, List.filterMap_cons]

/-- C10: cheapest-available selection excludes only records with a null
price, not records priced 0 (the zero-priced record is selected), and the
markup step divides by the selected wholesale price with no zero guard:
whenever the selected record is priced exactly 0, the pricing core
returns the internal-error quote (available = false, registrar "error",
all prices zero) instead of an available quote; whenever the selected
price is strictly positive, the division is well-defined and the core
returns an available quote. -/
theorem C10_zero_price_guard :
    (∀ (d loc : String) (det : Bool) (rs : List RegistrarResponse)
        (c : RegistrarResponse),
      find_cheapest_available rs = some c → c.price = some 0 →
      get_domain_pricing_core d loc det rs = (error_result d, none))
    ∧ (∀ (d loc : String) (det : Bool) (rs : List RegistrarResponse)
        (c : RegistrarResponse) (p : ℚ),
      find_cheapest_available rs = some c → c.price = some p → 0 < p →
      (get_domain_pricing_core d loc det rs).1.available = true)
    ∧ (zero_resp.available = true ∧ zero_resp.price = some 0
      ∧ find_cheapest_available [zero_resp] = some zero_resp)
    ∧ (∀ d : String, (error_result d).wholesale_registrar = "error"
      ∧ (error_result d).available = false
      ∧ (error_result d).wholesale_price = 0
      ∧ (error_result d).customer_price = 0) := by
  refine ⟨?_, ?_, ⟨rfl, rfl, rfl⟩, fun d => ⟨rfl, rfl, rfl, rfl⟩⟩
  · intro d loc det rs c hfind hzero
    have hca : c.available = true := (find_cheapest_spec rs c hfind).1
    unfold get_domain_pricing_core
    rw [hfind]
    dsimp only
    rw [if_neg (by simp [hca])]
    rw [apply_zero d c loc _ (by simp [hzero])]
  · intro d loc det rs c p hfind hp hpos
    have hca : c.available = true := (find_cheapest_spec rs c hfind).1
    unfold get_domain_pricing_core
    rw [hfind]
    dsimp only
    rw [if_neg (by simp [hca])]
    rcases happ : apply_geographic_markup d c loc
        (if det then some rs else none) with e | q
    · have h0 := apply_error_imp d c loc _ e happ
      rw [hp] at h0
      simp at h0
      exact absurd h0 (ne_of_gt hpos)
    · dsimp only
      exact (apply_ok_fields d c loc _ q happ).1

/-- Witness for C10: the zero-priced record triggers the error quote, and
a positively-priced record yields an available quote. -/
theorem C10_zero_price_guard_witness :
    get_domain_pricing_core "zero.com" "US" false [zero_resp]
      = (error_result "zero.com", none)
    ∧ (get_domain_pricing_core "example.com" "US" false [regB]).1.available = true :=
  ⟨C10_zero_price_guard.1 "zero.com" "US" false [zero_resp] zero_resp rfl rfl,
   C10_zero_price_guard.2.1 "example.com" "US" false [regB] regB 8 rfl rfl
     (by norm_num)⟩
